

import Mathlib

/-!
Verification of the ECS task facts module (`ecs_task_facts.py`).

The module resolves a set of ECS task identifiers (ARNs) matching a
combination of filters, and optionally fetches detailed records for them.
We embed the two central methods of `EcsTaskManager` — `list_tasks`
(the filter resolver, driving the paginated `list_tasks` remote API)
and `describe_tasks` (the record fetcher, driving the batch
`describe_tasks` remote API) — as pure Lean functions over an explicit
remote-client environment, and prove the specified properties about them.
-/

deriving instance DecidableEq for Except

/-- Python truthiness of an optional string parameter
(`if cluster:` etc.): `None` and the empty string are falsy. -/
def truthy : Option String → Bool
  | none => false
  | some s => s != ""

/-- Helper for `pySplitComma`: walk the characters, cutting a field at
every comma; `acc` holds the current field's characters in reverse. -/
def splitCommaAux : List Char → List Char → List String
  | acc, [] => [String.mk acc.reverse]
  | acc, c :: cs =>
    if c = ',' then String.mk acc.reverse :: splitCommaAux [] cs
    else splitCommaAux (c :: acc) cs

/-- Python's `s.split(",")`: fields between commas, empty fields
preserved, `"".split(",") == [""]`. -/
def pySplitComma (s : String) : List String := splitCommaAux [] s.data

/-- Python's `s.upper()` (ASCII upper-casing, which is all the module's
accepted status values need). -/
def pyUpper (s : String) : String := String.mk (s.data.map Char.toUpper)

/-- The keyword arguments (`fn_args`) passed to the remote `list_tasks`
paginator.  `cluster`, `containerInstance` and `startedBy` are the
non-exclusive filters; `family`, `serviceName` and `desiredStatus` are the
exclusive filters, at most one of which is set per call. -/
structure FnArgs where
  cluster : Option String
  containerInstance : Option String
  startedBy : Option String
  family : Option String
  serviceName : Option String
  desiredStatus : Option String
deriving DecidableEq, Repr

/-- A timestamp-typed field value of a task record: either still a
datetime object, or already a string.  Python's `str` applied to a
datetime yields its string form, which we carry in the constructor. -/
inductive TimeField where
  | datetime (s : String)
  | str (s : String)
deriving DecidableEq, Repr

/-- Python's `str(...)` on a `TimeField` value. -/
def TimeField.toStr : TimeField → TimeField
  | .datetime s => .str s
  | .str s => .str s

/-- A task record returned by the remote `describe_tasks` call.
Timestamp fields are optional (`'createdAt' in task` checks in the code). -/
structure TaskRecord where
  taskArn : String
  lastStatus : Option String
  createdAt : Option TimeField
  startedAt : Option TimeField
  stoppedAt : Option TimeField
deriving DecidableEq, Repr

/-- A failure entry reported by the remote `describe_tasks` call. -/
structure FailureEntry where
  arn : String
  reason : String
deriving DecidableEq, Repr

/-- The keyword arguments passed to the remote `describe_tasks` call. -/
structure DescribeArgs where
  cluster : Option String
  tasks : List String
deriving DecidableEq, Repr

/-- The raw response of the remote `describe_tasks` call: described task
records plus an optional `failures` entry (`none` models an absent key). -/
structure DescribeResponse where
  tasks : List TaskRecord
  failures : Option (List FailureEntry)
deriving DecidableEq, Repr

/-- The remote ECS client (`self.ecs`).  `list_tasks_pages` models the
`list_tasks` paginator: the full sequence of pages (each a `taskArns`
list), or a `botocore` client error.  `describe_tasks` models the batch
describe call, which may also fault. -/
structure EcsClient where
  list_tasks_pages : FnArgs → Except Unit (List (List String))
  describe_tasks : DescribeArgs → Except Unit DescribeResponse

/-- Accumulation of all pages into one identifier set:
`listed.update(set(page['taskArns']))` over every page. -/
def pagesUnion (pages : List (List String)) : Finset String :=
  pages.foldl (fun s page => s ∪ page.toFinset) ∅

/-- `EcsTaskManager.get_tasks_list`: paginate the remote `list_tasks`
call with the given `fn_args`, accumulating every page's ARNs into a set;
return it as-is if `tasks` is `None`, otherwise intersect it into `tasks`.
On a `botocore` `ClientError` the running value `tasks` is returned
unchanged. -/
def get_tasks_list (ecs : EcsClient) (tasks : Option (Finset String))
    (fn_args : FnArgs) : Option (Finset String) :=
  match ecs.list_tasks_pages fn_args with
  | .ok pages =>
      match tasks with
      | none => some (pagesUnion pages)
      | some t => some (t ∩ pagesUnion pages)
  | .error _ => tasks

/-- The base `fn_args` holding only the non-exclusive filters
(`cluster`, `containerInstance`, `startedBy`), each set only when the
corresponding parameter is truthy. -/
def baseArgs (cluster container started_by : Option String) : FnArgs :=
  { cluster := if truthy cluster then cluster else none
    containerInstance := if truthy container then container else none
    startedBy := if truthy started_by then started_by else none
    family := none, serviceName := none, desiredStatus := none }

/-- `fn_args` for the family-dimension query. -/
def familyQueryArgs (cluster container started_by family : Option String) :
    FnArgs :=
  { baseArgs cluster container started_by with family := family }

/-- `fn_args` for the service-dimension query. -/
def serviceQueryArgs (cluster container started_by service : Option String) :
    FnArgs :=
  { baseArgs cluster container started_by with serviceName := service }

/-- `fn_args` for the status-dimension query: the supplied status is
upper-cased (`status.upper()`) before being sent as `desiredStatus`. -/
def statusQueryArgs (cluster container started_by status : Option String) :
    FnArgs :=
  { baseArgs cluster container started_by with
      desiredStatus := status.map pyUpper }

/-- `EcsTaskManager.list_tasks`, instrumented: computes the final running
set `tasks` exactly as the source does, and also records the `fn_args` of
every `get_tasks_list` call issued, in order.  The running set starts as
`None`; each truthy exclusive filter issues one query; if no exclusive
query set the running set (none supplied, or every one absorbed an
error), one fallback query with only the non-exclusive filters is issued.
A final value of `none` corresponds to `list(None)` raising `TypeError`
in the source. -/
def list_tasks_run (ecs : EcsClient)
    (cluster container family service status started_by : Option String) :
    Option (Finset String) × List FnArgs :=
  let t0 : Option (Finset String) × List FnArgs := (none, [])
  let t1 := if truthy family then
      (get_tasks_list ecs t0.1 (familyQueryArgs cluster container started_by family),
       t0.2 ++ [familyQueryArgs cluster container started_by family])
    else t0
  let t2 := if truthy service then
      (get_tasks_list ecs t1.1 (serviceQueryArgs cluster container started_by service),
       t1.2 ++ [serviceQueryArgs cluster container started_by service])
    else t1
  let t3 := if truthy status then
      (get_tasks_list ecs t2.1 (statusQueryArgs cluster container started_by status),
       t2.2 ++ [statusQueryArgs cluster container started_by status])
    else t2
  if t3.1.isNone then
      (get_tasks_list ecs t3.1 (baseArgs cluster container started_by),
       t3.2 ++ [baseArgs cluster container started_by])
  else t3

/-- `EcsTaskManager.list_tasks`: the resolved identifier set
(`dict(tasks = list(tasks))`); `none` models the `TypeError` raised by
`list(None)` when even the fallback query absorbed an error. -/
def list_tasks (ecs : EcsClient)
    (cluster container family service status started_by : Option String) :
    Option (Finset String) :=
  (list_tasks_run ecs cluster container family service status started_by).1

/-- A Python-level error escaping a method. -/
inductive PyError where
  | clientError
  | typeError
deriving DecidableEq, Repr

/-- Result of a Python call: a value, or a raised error. -/
inductive PyResult (α : Type) where
  | ok (value : α)
  | raise (e : PyError)
deriving DecidableEq, Repr

/-- The `relevant_response` dict built by `describe_tasks`:
jsonized records under `tasks`, and the raw failure list under
`tasks_not_running` only when present and non-empty. -/
structure RelevantResponse where
  tasks : List TaskRecord
  tasks_not_running : Option (List FailureEntry)
deriving DecidableEq, Repr

/-- `EcsTaskManager.jsonize`: force the datetime-typed fields
(`createdAt`, `startedAt`, `stoppedAt`) to strings when present;
absent fields stay absent. -/
def jsonize (task : TaskRecord) : TaskRecord :=
  { task with
      createdAt := task.createdAt.map TimeField.toStr
      startedAt := task.startedAt.map TimeField.toStr
      stoppedAt := task.stoppedAt.map TimeField.toStr }

/-- The identifier list `describe_tasks` works on: the comma-split of the
explicit `task` parameter when truthy, otherwise the result of
`list_tasks` (whose `none` crash propagates as a `TypeError`; a set is
turned into a list in sorted order, modelling Python's arbitrary set
iteration order deterministically). -/
def resolved_tasks (ecs : EcsClient)
    (cluster container task family service status started_by : Option String) :
    PyResult (List String) :=
  if truthy task then .ok (pySplitComma (task.getD ""))
  else
    match list_tasks ecs cluster container family service status started_by with
    | some s => .ok (s.sort (· ≤ ·))
    | none => .raise .typeError

/-- One run of `EcsTaskManager.describe_tasks`: the remote batch-describe
call issued (if any) and the call's outcome. -/
structure DescribeRun where
  remoteCall : Option DescribeArgs
  result : PyResult RelevantResponse
deriving DecidableEq, Repr

/-- `EcsTaskManager.describe_tasks`, instrumented with the remote call it
issues.  If the identifier list has fewer than one element it returns
`dict(tasks = [])` without any remote call; otherwise it issues one
batch-describe call with the full list.  A fault of that call is not
caught and propagates; on success the records are jsonized and the
response's `failures` are copied to `tasks_not_running` only when present
and non-empty. -/
def describe_tasks (ecs : EcsClient)
    (cluster container task family service status started_by : Option String) :
    DescribeRun :=
  match resolved_tasks ecs cluster container task family service status started_by with
  | .raise e => { remoteCall := none, result := .raise e }
  | .ok tasksList =>
    if tasksList.length < 1 then
      { remoteCall := none
        result := .ok { tasks := [], tasks_not_running := none } }
    else
      match ecs.describe_tasks
          { cluster := if truthy cluster then cluster else none
            tasks := tasksList } with
      | .error _ =>
          { remoteCall := some
              { cluster := if truthy cluster then cluster else none
                tasks := tasksList }
            result := .raise .clientError }
      | .ok response =>
          { remoteCall := some
              { cluster := if truthy cluster then cluster else none
                tasks := tasksList }
            result := .ok
              { tasks := response.tasks.map jsonize
                tasks_not_running :=
                  match response.failures with
                  | some fs => if fs.length > 0 then some fs else none
                  | none => none } }

/-- The `status` values accepted by the module's `argument_spec`
(`choices=['running', 'pending', 'stopped']`). -/
def statusChoices : List String := ["running", "pending", "stopped"]

/-- Modelled from the spec: the accepted limit of the remote
batch-describe call ("Record Fetcher never receives more identifiers than
fit one batch-describe call's accepted limit").  The limit itself lives
in the remote ECS `DescribeTasks` API (100 identifiers per call), not in
this repository's code. -/
def batchDescribeLimit : Nat := 100

/-- The outcome of one paginated list query, with the remote interaction
abstracted away: the accumulated identifier set, or an absorbed client
error. -/
def queryResult (ecs : EcsClient) (args : FnArgs) :
    Except Unit (Finset String) :=
  match ecs.list_tasks_pages args with
  | .ok pages => .ok (pagesUnion pages)
  | .error e => .error e

/-- The combination step of `get_tasks_list`, abstracted over the query
outcome: a successful query seeds the running set or is intersected into
it; an errored query leaves the running set unchanged. -/
def combineQuery (tasks : Option (Finset String))
    (outcome : Except Unit (Finset String)) : Option (Finset String) :=
  match outcome with
  | .ok listed =>
      match tasks with
      | none => some listed
      | some t => some (t ∩ listed)
  | .error _ => tasks

/-- The per-dimension query outcomes of one `list_tasks` run, in the
source's fixed evaluation order family, service, status (only the truthy
dimensions appear). -/
def exclusiveOutcomes (ecs : EcsClient)
    (cluster container family service status started_by : Option String) :
    List (Except Unit (Finset String)) :=
  (if truthy family then
      [queryResult ecs (familyQueryArgs cluster container started_by family)]
    else [])
  ++ (if truthy service then
      [queryResult ecs (serviceQueryArgs cluster container started_by service)]
    else [])
  ++ (if truthy status then
      [queryResult ecs (statusQueryArgs cluster container started_by status)]
    else [])

/-- `list_tasks`' resolution loop as a fold over per-dimension query
outcomes, with the fallback (non-exclusive-only) query issued exactly
when the running set is still `None` afterwards. -/
def resolveExclusive (outcomes : List (Except Unit (Finset String)))
    (fallback : Except Unit (Finset String)) : Option (Finset String) :=
  let tasks := outcomes.foldl combineQuery none
  if tasks.isNone then combineQuery tasks fallback else tasks

/-- Remote environment for the C1 counterexample: the family-dimension
query raises a client error, any other listing query returns the page
`["t1", "t2"]`. -/
def cexEcsC1 : EcsClient :=
  { list_tasks_pages := fun args =>
      if args.family.isSome then .error () else .ok [["t1", "t2"]]
    describe_tasks := fun _ => .ok { tasks := [], failures := none } }

/-- Closed witness for the amended C1 at a concrete input: the family
query succeeds with zero pages (empty set), so the resolution is empty
even though no other filter is present. -/
def wEcsEmptyFam : EcsClient :=
  { list_tasks_pages := fun args =>
      if args.family.isSome then .ok [] else .ok [["t1"]]
    describe_tasks := fun _ => .ok { tasks := [], failures := none } }

/-- Remote environment for the C2 counterexample: every query carrying an
exclusive filter raises a client error; the unconstrained query returns
the page `["t1"]`. -/
def cexEcsC2 : EcsClient :=
  { list_tasks_pages := fun args =>
      if args.family.isSome || args.serviceName.isSome
          || args.desiredStatus.isSome then .error ()
      else .ok [["t1"]]
    describe_tasks := fun _ => .ok { tasks := [], failures := none } }

/-- Remote environment for the C3 counterexample: the service-dimension
query raises a client error, any other listing query returns the page
`["t1"]`. -/
def cexEcsC3 : EcsClient :=
  { list_tasks_pages := fun args =>
      if args.serviceName.isSome then .error () else .ok [["t1"]]
    describe_tasks := fun _ => .ok { tasks := [], failures := none } }

/-- An explicit `task` parameter naming 101 identifiers
(`t0,t1,...,t100`). -/
def bigTaskParam : String :=
  String.intercalate "," ((List.range 101).map (fun i => "t" ++ Nat.repr i))

/-- Remote environment for the C5 counterexample: listing returns no
pages, batch-describe succeeds with an empty response. -/
def cexEcsC5 : EcsClient :=
  { list_tasks_pages := fun _ => .ok []
    describe_tasks := fun _ => .ok { tasks := [], failures := none } }

/-- Remote environment where the batch-describe call always faults. -/
def wEcsDescribeErr : EcsClient :=
  { list_tasks_pages := fun _ => .ok []
    describe_tasks := fun _ => .error () }

/-- A concrete record for the witnesses (identifier `"t3"`, with a
datetime-typed creation field). -/
def wRecordZ : TaskRecord :=
  { taskArn := "t3", lastStatus := some "RUNNING"
    createdAt := some (.datetime "2016-01-01 00:00:00")
    startedAt := none, stoppedAt := none }

/-- Remote environment for the C8 witness: the batch-describe call
reports the record of `"t3"` and failure entries for `"t1"` and
`"t2"`. -/
def wEcsC8 : EcsClient :=
  { list_tasks_pages := fun _ => .ok []
    describe_tasks := fun _ =>
      .ok { tasks := [wRecordZ]
            failures := some [{ arn := "t1", reason := "MISSING" },
                              { arn := "t2", reason := "MISSING" }] } }

/-- The batch-describe behaviour shared by the two C9 witness
environments. -/
def wDescribeOk : DescribeArgs → Except Unit DescribeResponse :=
  fun _ => .ok { tasks := [wRecordZ], failures := none }

/-- C9 witness environment whose listing queries succeed. -/
def wEcsListOk : EcsClient :=
  { list_tasks_pages := fun _ => .ok [["x1", "x2"]]
    describe_tasks := wDescribeOk }

/-- C9 witness environment whose listing queries all fault. -/
def wEcsListErr : EcsClient :=
  { list_tasks_pages := fun _ => .error ()
    describe_tasks := wDescribeOk }

theorem jsonize_taskArn (task : TaskRecord) :
    (jsonize task).taskArn = task.taskArn := rfl

theorem get_tasks_list_eq_combine (ecs : EcsClient)
    (tasks : Option (Finset String)) (fn_args : FnArgs) :
    get_tasks_list ecs tasks fn_args
      = combineQuery tasks (queryResult ecs fn_args) := by
  unfold get_tasks_list combineQuery queryResult
  cases ecs.list_tasks_pages fn_args <;> cases tasks <;> rfl

/-- `list_tasks` is the fold `resolveExclusive` over the supplied
dimensions' query outcomes, with the base query as fallback. -/
theorem list_tasks_eq_resolveExclusive (ecs : EcsClient)
    (cluster container family service status started_by : Option String) :
    list_tasks ecs cluster container family service status started_by
      = resolveExclusive
          (exclusiveOutcomes ecs cluster container family service status started_by)
          (queryResult ecs (baseArgs cluster container started_by)) := by
  unfold list_tasks list_tasks_run exclusiveOutcomes resolveExclusive
  cases truthy family <;> cases truthy service <;> cases truthy status <;>
    simp [get_tasks_list_eq_combine] <;> split <;> rfl

theorem combineQuery_error (tasks : Option (Finset String)) :
    combineQuery tasks (.error ()) = tasks := rfl

theorem combineQuery_ok_empty (tasks : Option (Finset String)) :
    combineQuery tasks (.ok ∅) = some ∅ := by
  cases tasks <;> simp [combineQuery]

theorem combineQuery_empty_left (o : Except Unit (Finset String)) :
    combineQuery (some ∅) o = some ∅ := by
  cases o <;> simp [combineQuery]

theorem foldl_combineQuery_from_empty
    (l : List (Except Unit (Finset String))) :
    l.foldl combineQuery (some ∅) = some ∅ := by
  induction l with
  | nil => rfl
  | cons a l ih => rw [List.foldl_cons, combineQuery_empty_left]; exact ih

theorem foldl_combineQuery_mem_empty
    (l : List (Except Unit (Finset String))) (t : Option (Finset String))
    (h : Except.ok ∅ ∈ l) : l.foldl combineQuery t = some ∅ := by
  induction l generalizing t with
  | nil => cases h
  | cons a l ih =>
    rcases List.mem_cons.mp h with h1 | h2
    · rw [List.foldl_cons, ← h1, combineQuery_ok_empty]
      exact foldl_combineQuery_from_empty l
    · rw [List.foldl_cons]; exact ih _ h2

theorem foldl_combineQuery_all_error
    (l : List (Except Unit (Finset String)))
    (h : ∀ x ∈ l, x = .error ()) (t : Option (Finset String)) :
    l.foldl combineQuery t = t := by
  induction l generalizing t with
  | nil => rfl
  | cons a l ih =>
    rw [List.foldl_cons, h a (List.mem_cons_self a l), combineQuery_error]
    exact ih (fun x hx => h x (List.mem_cons_of_mem a hx)) t

theorem combineQuery_swap (t : Option (Finset String))
    (a b : Except Unit (Finset String)) :
    combineQuery (combineQuery t a) b = combineQuery (combineQuery t b) a := by
  cases a <;> cases b <;> cases t <;>
    simp [combineQuery, Finset.inter_comm, Finset.inter_right_comm,
      Finset.inter_left_comm]

/-- C1, counterexample.  With family and status filters supplied, the
family query faults (absorbed) and the status query returns
`{"t1", "t2"}`; `list_tasks` returns `{"t1", "t2"}`, not the empty set —
an absorbed fault does NOT behave as an empty result, it leaves the
running set unchanged. -/
theorem empty_dominance_counterexample :
    cexEcsC1.list_tasks_pages
        (familyQueryArgs (some "c1") none none (some "web")) = .error ()
    ∧ list_tasks cexEcsC1 (some "c1") none (some "web") none
        (some "running") none = some {"t1", "t2"}
    ∧ some ({"t1", "t2"} : Finset String) ≠ some (∅ : Finset String) :=
  ⟨rfl, by decide, by decide⟩

/-- C1, amended claim: with at least one exclusive filter supplied, if
any exclusive filter's underlying query SUCCESSFULLY returns an empty
identifier set, the resolved set of `list_tasks` is empty.  (An absorbed
fault is not an empty result: it leaves the running set unchanged.) -/
theorem list_tasks_empty_dominance (ecs : EcsClient)
    (cluster container family service status started_by : Option String)
    (h : (truthy family = true
            ∧ queryResult ecs (familyQueryArgs cluster container started_by family) = .ok ∅)
       ∨ (truthy service = true
            ∧ queryResult ecs (serviceQueryArgs cluster container started_by service) = .ok ∅)
       ∨ (truthy status = true
            ∧ queryResult ecs (statusQueryArgs cluster container started_by status) = .ok ∅)) :
    list_tasks ecs cluster container family service status started_by
      = some ∅ := by
  rw [list_tasks_eq_resolveExclusive]
  have hmem : Except.ok (∅ : Finset String)
      ∈ exclusiveOutcomes ecs cluster container family service status started_by := by
    unfold exclusiveOutcomes
    rcases h with ⟨ht, hq⟩ | ⟨ht, hq⟩ | ⟨ht, hq⟩ <;>
      simp [ht, hq, List.mem_append]
  unfold resolveExclusive
  rw [foldl_combineQuery_mem_empty _ _ hmem]
  rfl

theorem list_tasks_empty_dominance_witness :
    (truthy (some "web") = true
      ∧ queryResult wEcsEmptyFam
          (familyQueryArgs (some "c1") none none (some "web")) = .ok ∅)
    ∧ list_tasks wEcsEmptyFam (some "c1") none (some "web") none none none
        = some ∅ :=
  ⟨⟨rfl, rfl⟩,
   list_tasks_empty_dominance wEcsEmptyFam (some "c1") none (some "web")
     none none none (Or.inl ⟨rfl, rfl⟩)⟩

/-- C2, counterexample.  One exclusive filter (family) is supplied and
its query errors; `list_tasks` does NOT return the empty set — it falls
back to the unconstrained query carrying only the non-exclusive filters
and returns that query's result `{"t1"}`. -/
theorem no_unconstrained_fallback_counterexample :
    cexEcsC2.list_tasks_pages
        (familyQueryArgs (some "c1") none none (some "web")) = .error ()
    ∧ queryResult cexEcsC2 (baseArgs (some "c1") none none) = .ok {"t1"}
    ∧ list_tasks cexEcsC2 (some "c1") none (some "web") none none none
        = some {"t1"}
    ∧ some ({"t1"} : Finset String) ≠ some (∅ : Finset String) :=
  ⟨rfl, by decide, by decide, by decide⟩

/-- C2, amended claim: when one or more exclusive filters are supplied
and every corresponding underlying query errors, `list_tasks` DOES fall
back to the unconstrained query carrying only the non-exclusive filters:
its result is exactly that fallback query's combined outcome (the
fallback's identifier set on success; on a fallback error the running
value stays `None` and `list(None)` raises). -/
theorem list_tasks_all_errored_fallback (ecs : EcsClient)
    (cluster container family service status started_by : Option String)
    (_hex : truthy family = true ∨ truthy service = true ∨ truthy status = true)
    (hf : truthy family = true →
      queryResult ecs (familyQueryArgs cluster container started_by family) = .error ())
    (hs : truthy service = true →
      queryResult ecs (serviceQueryArgs cluster container started_by service) = .error ())
    (hst : truthy status = true →
      queryResult ecs (statusQueryArgs cluster container started_by status) = .error ()) :
    list_tasks ecs cluster container family service status started_by
      = combineQuery none (queryResult ecs (baseArgs cluster container started_by)) := by
  rw [list_tasks_eq_resolveExclusive]
  have hall : ∀ x ∈ exclusiveOutcomes ecs cluster container family service status started_by,
      x = .error () := by
    intro x hx
    simp only [exclusiveOutcomes, List.mem_append] at hx
    rcases hx with (hx | hx) | hx
    · rcases hb : truthy family with _ | _
      · simp [hb] at hx
      · simp [hb] at hx; rw [hx]; exact hf hb
    · rcases hb : truthy service with _ | _
      · simp [hb] at hx
      · simp [hb] at hx; rw [hx]; exact hs hb
    · rcases hb : truthy status with _ | _
      · simp [hb] at hx
      · simp [hb] at hx; rw [hx]; exact hst hb
  unfold resolveExclusive
  rw [foldl_combineQuery_all_error _ hall]
  rfl

theorem list_tasks_all_errored_fallback_witness :
    (truthy (some "web") = true
      ∧ queryResult cexEcsC2
          (familyQueryArgs (some "c1") none none (some "web")) = .error ())
    ∧ list_tasks cexEcsC2 (some "c1") none (some "web") none none none
        = combineQuery none (queryResult cexEcsC2 (baseArgs (some "c1") none none)) :=
  ⟨⟨rfl, rfl⟩,
   list_tasks_all_errored_fallback cexEcsC2 (some "c1") none (some "web")
     none none none (Or.inl rfl) (fun _ => rfl)
     (fun hc => by cases hc) (fun hc => by cases hc)⟩

/-- C3, counterexample.  The family query returns `{"t1"}` and the
service query faults.  Had the faulted query contributed an empty
identifier set, the intersection would be empty; instead `list_tasks`
returns `{"t1"}`: the faulted query is a no-op on the running set, not an
empty contribution. -/
theorem error_contributes_empty_counterexample :
    cexEcsC3.list_tasks_pages
        (serviceQueryArgs (some "c1") none none (some "api")) = .error ()
    ∧ list_tasks cexEcsC3 (some "c1") none (some "web") (some "api") none none
        = some {"t1"}
    ∧ combineQuery (some {"t1"}) (.ok (∅ : Finset String)) = some ∅
    ∧ some ({"t1"} : Finset String) ≠ some (∅ : Finset String) :=
  ⟨rfl, by decide, by decide, by decide⟩

/-- C3, amended claim: when the remote paginated call of a single-filter
list query faults with a client error, `get_tasks_list` absorbs the
fault — nothing propagates (the function returns normally) — but the
query contributes nothing: it returns the running set `tasks` unchanged
rather than contributing an empty identifier set. -/
theorem get_tasks_list_error_is_noop (ecs : EcsClient)
    (tasks : Option (Finset String)) (fn_args : FnArgs)
    (h : ecs.list_tasks_pages fn_args = .error ()) :
    get_tasks_list ecs tasks fn_args = tasks := by
  unfold get_tasks_list
  rw [h]

theorem get_tasks_list_error_is_noop_witness :
    cexEcsC3.list_tasks_pages
        (serviceQueryArgs (some "c1") none none (some "api")) = .error ()
    ∧ get_tasks_list cexEcsC3 (some {"t1"})
        (serviceQueryArgs (some "c1") none none (some "api")) = some {"t1"} :=
  ⟨rfl,
   get_tasks_list_error_is_noop cexEcsC3 (some {"t1"})
     (serviceQueryArgs (some "c1") none none (some "api")) rfl⟩

/-- C4: for fixed per-dimension query outcomes (successful sets or
absorbed faults), the resolution loop of `list_tasks` — the fold
`resolveExclusive`, including the fallback-query rule — yields the same
resolved set under any reordering of the exclusive-filter dimensions; in
particular evaluating `[A, B]` equals evaluating `[B, A]`. -/
theorem resolveExclusive_order_independent
    (outcomes1 outcomes2 : List (Except Unit (Finset String)))
    (p : outcomes1.Perm outcomes2)
    (fallback : Except Unit (Finset String)) :
    resolveExclusive outcomes1 fallback = resolveExclusive outcomes2 fallback := by
  unfold resolveExclusive
  rw [p.foldl_eq' (fun x _ y _ z => combineQuery_swap z x y) none]

theorem resolveExclusive_order_independent_witness :
    resolveExclusive [Except.ok {"t1", "t2"}, Except.error ()] (.ok {"t9"})
      = resolveExclusive [Except.error (), Except.ok {"t1", "t2"}] (.ok {"t9"}) :=
  resolveExclusive_order_independent
    [Except.ok {"t1", "t2"}, Except.error ()]
    [Except.error (), Except.ok {"t1", "t2"}]
    (List.Perm.swap _ _ _) (.ok {"t9"})

set_option maxRecDepth 8192 in
/-- C5, counterexample.  With an explicit 101-identifier `task`
parameter, `describe_tasks` issues the remote batch-describe call with
all 101 identifiers — more than the call's accepted limit (100).  No
chunking or limiting happens anywhere in the code. -/
theorem batch_limit_counterexample :
    ((describe_tasks cexEcsC5 (some "c1") none (some bigTaskParam)
          none none none none).remoteCall.map (fun a => a.tasks.length))
        = some 101
    ∧ ¬ (101 ≤ batchDescribeLimit) :=
  ⟨by decide, by decide⟩

/-- C5, amended claim: whenever `describe_tasks` issues the remote
batch-describe call, the identifier list passed is exactly the full
resolved or explicit identifier list — the code enforces no batch-size
limit at all, so the list may exceed the remote call's accepted limit. -/
theorem describe_tasks_passes_full_list (ecs : EcsClient)
    (cluster container task family service status started_by : Option String)
    (args : DescribeArgs)
    (h : (describe_tasks ecs cluster container task family service status
        started_by).remoteCall = some args) :
    resolved_tasks ecs cluster container task family service status started_by
      = .ok args.tasks := by
  unfold describe_tasks at h
  rcases hres : resolved_tasks ecs cluster container task family service status
      started_by with l | e
  · rw [hres] at h
    by_cases hlen : l.length < 1
    · simp [hlen] at h
    · simp only [if_neg hlen] at h
      rcases hd : ecs.describe_tasks
          { cluster := if truthy cluster then cluster else none, tasks := l }
          with _ | response
      · rw [hd] at h
        simp at h
        rw [← h]
      · rw [hd] at h
        simp at h
        rw [← h]
  · rw [hres] at h; simp at h

theorem describe_tasks_passes_full_list_witness :
    (describe_tasks cexEcsC5 (some "c1") none (some "t1,t2")
        none none none none).remoteCall
      = some { cluster := some "c1", tasks := ["t1", "t2"] }
    ∧ resolved_tasks cexEcsC5 (some "c1") none (some "t1,t2") none none none none
      = .ok ["t1", "t2"] :=
  ⟨rfl,
   describe_tasks_passes_full_list cexEcsC5 (some "c1") none (some "t1,t2")
     none none none none { cluster := some "c1", tasks := ["t1", "t2"] } rfl⟩

/-- C6: a fault of the remote batch-describe call is not absorbed: if the
call `describe_tasks` issued faults, the method's outcome is that raised
client error — no (partially populated) response dict is returned. -/
theorem describe_tasks_error_propagates (ecs : EcsClient)
    (cluster container task family service status started_by : Option String)
    (args : DescribeArgs)
    (hcall : (describe_tasks ecs cluster container task family service status
        started_by).remoteCall = some args)
    (herr : ecs.describe_tasks args = .error ()) :
    (describe_tasks ecs cluster container task family service status
        started_by).result = .raise .clientError := by
  unfold describe_tasks at hcall ⊢
  rcases hres : resolved_tasks ecs cluster container task family service status
      started_by with l | e
  · rw [hres] at hcall
    by_cases hlen : l.length < 1
    · simp [hlen] at hcall
    · simp only [if_neg hlen] at hcall ⊢
      rcases hd : ecs.describe_tasks
          { cluster := if truthy cluster then cluster else none, tasks := l }
          with _ | response
      · rfl
      · rw [hd] at hcall
        simp at hcall
        rw [← hcall] at herr
        rw [herr] at hd
        cases hd
  · simp [hres] at hcall

theorem describe_tasks_error_propagates_witness :
    ((describe_tasks wEcsDescribeErr (some "c1") none (some "t1")
          none none none none).remoteCall
        = some { cluster := some "c1", tasks := ["t1"] }
      ∧ wEcsDescribeErr.describe_tasks { cluster := some "c1", tasks := ["t1"] }
        = .error ())
    ∧ (describe_tasks wEcsDescribeErr (some "c1") none (some "t1")
          none none none none).result = .raise .clientError :=
  ⟨⟨rfl, rfl⟩,
   describe_tasks_error_propagates wEcsDescribeErr (some "c1") none (some "t1")
     none none none none { cluster := some "c1", tasks := ["t1"] } rfl rfl⟩

/-- C7: with an empty identifier list after resolution (the explicit
comma-split is never empty), `describe_tasks` returns empty records and
no failure entry, and issues no remote batch-describe call. -/
theorem describe_tasks_empty_short_circuit (ecs : EcsClient)
    (cluster container task family service status started_by : Option String)
    (h : resolved_tasks ecs cluster container task family service status
        started_by = .ok []) :
    describe_tasks ecs cluster container task family service status started_by
      = { remoteCall := none
          result := .ok { tasks := [], tasks_not_running := none } } := by
  unfold describe_tasks
  rw [h]
  rfl

theorem describe_tasks_empty_short_circuit_witness :
    resolved_tasks wEcsDescribeErr (some "c1") none none none none none none
        = .ok []
    ∧ describe_tasks wEcsDescribeErr (some "c1") none none none none none none
        = { remoteCall := none
            result := .ok { tasks := [], tasks_not_running := none } } :=
  ⟨by
     have h1 : list_tasks wEcsDescribeErr (some "c1") none none none none none
         = some ∅ := rfl
     simp [resolved_tasks, truthy, h1, Finset.sort_empty],
   describe_tasks_empty_short_circuit wEcsDescribeErr (some "c1") none none
     none none none none
     (by
       have h1 : list_tasks wEcsDescribeErr (some "c1") none none none none none
           = some ∅ := rfl
       simp [resolved_tasks, truthy, h1, Finset.sort_empty])⟩

/-- C8: on a successful batch-describe call, the output holds exactly the
records the call described (jsonized, identifier for identifier), and the
response's failure entries pass through unmodified under
`tasks_not_running` — present exactly when non-empty. -/
theorem describe_tasks_failure_passthrough (ecs : EcsClient)
    (cluster container task family service status started_by : Option String)
    (args : DescribeArgs) (response : DescribeResponse)
    (hcall : (describe_tasks ecs cluster container task family service status
        started_by).remoteCall = some args)
    (hok : ecs.describe_tasks args = .ok response) :
    ∃ rel : RelevantResponse,
      (describe_tasks ecs cluster container task family service status
          started_by).result = .ok rel
      ∧ rel.tasks = response.tasks.map jsonize
      ∧ rel.tasks.map TaskRecord.taskArn = response.tasks.map TaskRecord.taskArn
      ∧ (∀ fs, response.failures = some fs → 0 < fs.length →
          rel.tasks_not_running = some fs)
      ∧ ((response.failures = none ∨ response.failures = some []) →
          rel.tasks_not_running = none) := by
  unfold describe_tasks at hcall ⊢
  rcases hres : resolved_tasks ecs cluster container task family service status
      started_by with l | e
  · rw [hres] at hcall
    by_cases hlen : l.length < 1
    · simp [hlen] at hcall
    · simp only [if_neg hlen] at hcall ⊢
      rcases hd : ecs.describe_tasks
          { cluster := if truthy cluster then cluster else none, tasks := l }
          with _ | resp
      · rw [hd] at hcall
        simp at hcall
        rw [← hcall] at hok
        rw [hok] at hd
        cases hd
      · rw [hd] at hcall
        simp at hcall
        rw [← hcall] at hok
        rw [hd] at hok
        injection hok with hresp
        subst hresp
        refine ⟨_, rfl, rfl, ?_, ?_, ?_⟩
        · simp [List.map_map, Function.comp_def, jsonize_taskArn]
        · intro fs hfs hlenfs
          simp [hfs, hlenfs]
        · intro hnone
          rcases hnone with hnone | hnone <;> simp [hnone]
  · simp [hres] at hcall

theorem describe_tasks_failure_passthrough_witness :
    ((describe_tasks wEcsC8 (some "c1") none (some "t1,t2,t3")
          none none none none).remoteCall
        = some { cluster := some "c1", tasks := ["t1", "t2", "t3"] }
      ∧ wEcsC8.describe_tasks { cluster := some "c1", tasks := ["t1", "t2", "t3"] }
        = .ok { tasks := [wRecordZ]
                failures := some [{ arn := "t1", reason := "MISSING" },
                                  { arn := "t2", reason := "MISSING" }] })
    ∧ (∃ rel : RelevantResponse,
        (describe_tasks wEcsC8 (some "c1") none (some "t1,t2,t3")
            none none none none).result = .ok rel
        ∧ rel.tasks = [wRecordZ].map jsonize
        ∧ rel.tasks.map TaskRecord.taskArn = [wRecordZ].map TaskRecord.taskArn
        ∧ (∀ fs, (some [({ arn := "t1", reason := "MISSING" } : FailureEntry),
                        { arn := "t2", reason := "MISSING" }]
              : Option (List FailureEntry)) = some fs → 0 < fs.length →
            rel.tasks_not_running = some fs)
        ∧ (((some [({ arn := "t1", reason := "MISSING" } : FailureEntry),
                   { arn := "t2", reason := "MISSING" }]
              : Option (List FailureEntry)) = none
            ∨ (some [({ arn := "t1", reason := "MISSING" } : FailureEntry),
                     { arn := "t2", reason := "MISSING" }]
              : Option (List FailureEntry)) = some []) →
            rel.tasks_not_running = none)) :=
  ⟨⟨rfl, rfl⟩,
   describe_tasks_failure_passthrough wEcsC8 (some "c1") none (some "t1,t2,t3")
     none none none none
     { cluster := some "c1", tasks := ["t1", "t2", "t3"] }
     { tasks := [wRecordZ]
       failures := some [{ arn := "t1", reason := "MISSING" },
                         { arn := "t2", reason := "MISSING" }] }
     rfl rfl⟩

/-- C9: a truthy explicit `task` parameter bypasses the filter resolver
entirely: the run of `describe_tasks` is identical across arbitrary
changes of the `container`, `family`, `service`, `status` and
`started_by` parameters AND across arbitrary changes of the remote
listing behaviour (so `list_tasks` cannot have been consulted). -/
theorem explicit_task_bypasses_resolver (ecs1 ecs2 : EcsClient)
    (hd : ecs1.describe_tasks = ecs2.describe_tasks)
    (cluster task : Option String) (ht : truthy task = true)
    (container1 family1 service1 status1 started_by1
     container2 family2 service2 status2 started_by2 : Option String) :
    describe_tasks ecs1 cluster container1 task family1 service1 status1 started_by1
      = describe_tasks ecs2 cluster container2 task family2 service2 status2 started_by2 := by
  unfold describe_tasks resolved_tasks
  simp [ht, hd]

theorem explicit_task_bypasses_resolver_witness :
    truthy (some "t9") = true
    ∧ wEcsListOk.describe_tasks = wEcsListErr.describe_tasks
    ∧ describe_tasks wEcsListOk (some "c1") (some "node1") (some "t9")
        (some "webf") (some "svc") (some "running") (some "u1")
      = describe_tasks wEcsListErr (some "c1") none (some "t9")
        none none none none :=
  ⟨rfl, rfl,
   explicit_task_bypasses_resolver wEcsListOk wEcsListErr rfl (some "c1")
     (some "t9") rfl (some "node1") (some "webf") (some "svc") (some "running")
     (some "u1") none none none none none⟩

/-- C10: for any accepted `status` choice, the status-dimension query
issued by `list_tasks` carries as `desiredStatus` exactly the upper-cased
form of the supplied value; the accepted lowercase choices map to
`RUNNING`, `PENDING`, `STOPPED`. -/
theorem status_query_uppercased (ecs : EcsClient)
    (cluster container family service started_by : Option String) (s : String)
    (hs : s ∈ statusChoices) :
    statusQueryArgs cluster container started_by (some s)
        ∈ (list_tasks_run ecs cluster container family service (some s) started_by).2
    ∧ (statusQueryArgs cluster container started_by (some s)).desiredStatus
        = some (pyUpper s)
    ∧ pyUpper s ∈ (["RUNNING", "PENDING", "STOPPED"] : List String) := by
  refine ⟨?_, rfl, ?_⟩
  · have hne : truthy (some s) = true := by
      fin_cases hs <;> decide
    unfold list_tasks_run
    cases truthy family <;> cases truthy service <;> simp [hne] <;> split <;> simp
  · fin_cases hs <;> decide

theorem status_query_uppercased_witness :
    ("running" ∈ statusChoices)
    ∧ (statusQueryArgs (some "c1") none none (some "running")
        ∈ (list_tasks_run wEcsListOk (some "c1") none none none
            (some "running") none).2
      ∧ (statusQueryArgs (some "c1") none none (some "running")).desiredStatus
        = some (pyUpper "running")
      ∧ pyUpper "running" ∈ (["RUNNING", "PENDING", "STOPPED"] : List String)) :=
  ⟨by decide,
   status_query_uppercased wEcsListOk (some "c1") none none none none
     "running" (by decide)⟩
